import Mathlib

/-!
Verification of the Dailymile synchronization adapter
(`tapiriik/services/Dailymile/dailymile.py`).

The file shallowly embeds the adapter core: the static activity-type
mapping tables, the entry payload built by `UploadActivity`, the
response handling of the two-phase upload protocol, and the page
processing and cursor advance of `DownloadActivityList`.  Machine
integers are modelled as `Int` (unix seconds), JSON numbers carrying
distances as `Rat`, and the HTTP collaborators as explicit parameters
(the server is a function from the `until` cursor to a response, the
upload requests are explicit response records).
-/

namespace Dailymile

/-- The neutral activity types appearing as keys of the forward mapping
table `_activityTypeMappings` (dailymile.py lines 39-53).  The neutral
schema itself lives in `tapiriik.services.interchange`, outside the
adapter; only the thirteen supported constructors are needed here. -/
inductive ActivityType where
  | Cycling
  | MountainBiking
  | Hiking
  | Running
  | Walking
  | Snowboarding
  | Skating
  | CrossCountrySkiing
  | DownhillSkiing
  | Swimming
  | Gym
  | Rowing
  | Elliptical
deriving DecidableEq, Repr

/-- Modelled from the spec: the neutral schema's stringified activity
type (spec sections 4.3 and 4.5 speak of "the stringified activity
type"; the constants live in `tapiriik.services.interchange`, which is
not under `src/`).  Each enum value is its own name as a string, which
is what `activity.Type == "Swimming"` at dailymile.py line 264
compares against. -/
def typeName : ActivityType → String
  | .Cycling => "Cycling"
  | .MountainBiking => "MountainBiking"
  | .Hiking => "Hiking"
  | .Running => "Running"
  | .Walking => "Walking"
  | .Snowboarding => "Snowboarding"
  | .Skating => "Skating"
  | .CrossCountrySkiing => "CrossCountrySkiing"
  | .DownhillSkiing => "DownhillSkiing"
  | .Swimming => "Swimming"
  | .Gym => "Gym"
  | .Rowing => "Rowing"
  | .Elliptical => "Elliptical"

/-- `_activityTypeMappings` (dailymile.py lines 39-53): the forward
(neutral to remote) association table, in source order. -/
def activityTypeMappings : List (ActivityType × String) :=
  [ (.Cycling, "Cycling")
  , (.MountainBiking, "Cycling")
  , (.Hiking, "Walking")
  , (.Running, "Running")
  , (.Walking, "Walking")
  , (.Snowboarding, "Fitness")
  , (.Skating, "Fitness")
  , (.CrossCountrySkiing, "Fitness")
  , (.DownhillSkiing, "Fitness")
  , (.Swimming, "Swimming")
  , (.Gym, "Fitness")
  , (.Rowing, "Fitness")
  , (.Elliptical, "Fitness") ]

/-- `_reverseActivityTypeMappings` (dailymile.py lines 56-62): the
reverse (remote to neutral) association table, in source order. -/
def reverseActivityTypeMappings : List (String × ActivityType) :=
  [ ("Cycling", .Cycling)
  , ("Running", .Running)
  , ("Walking", .Walking)
  , ("Swimming", .Swimming)
  , ("Fitness", .Gym) ]

/-- Forward lookup, `self._activityTypeMappings[activity.Type]`
(dailymile.py line 255). -/
def toRemoteType (t : ActivityType) : Option String :=
  activityTypeMappings.lookup t

/-- Reverse lookup, `self._reverseActivityTypeMappings[...]`
(dailymile.py lines 168 and 173). -/
def toNeutralType (s : String) : Option ActivityType :=
  reverseActivityTypeMappings.lookup s

/-- `SupportedActivities = list(_activityTypeMappings.keys())`
(dailymile.py line 64). -/
def SupportedActivities : List ActivityType :=
  activityTypeMappings.map Prod.fst

/-- Distance units produced or consumed by the adapter.  The neutral
unit vocabulary lives in `tapiriik.services.interchange`
(`ActivityStatisticUnit`); only the units this adapter touches are
modelled. -/
inductive DistUnit where
  | Miles
  | Meters
  | Kilometers
deriving DecidableEq, Repr

/-- A unit-tagged distance value (`ActivityStatistic(unit, value=v)`). -/
structure Stat where
  unit : DistUnit
  value : Rat
deriving DecidableEq, Repr

/-- Modelled from the spec: metres per unit, the conversion factor
table of `ActivityStatistic.asUnits` in
`tapiriik.services.interchange` (not under `src/`); spec section 4.1
names "distance-unit conversion rules" with the standard factors
(one mile = 1609.344 metres, one kilometre = 1000 metres). -/
def metersPer : DistUnit → Rat
  | .Miles => 1609344 / 1000
  | .Meters => 1
  | .Kilometers => 1000

/-- Modelled from the spec: `ActivityStatistic.asUnits` of
`tapiriik.services.interchange` (not under `src/`) converts a
unit-tagged value to a target unit using the factor table. -/
def asUnits (s : Stat) (u : DistUnit) : Stat :=
  ⟨u, s.value * metersPer s.unit / metersPer u⟩

/-- A neutral activity as this adapter reads and writes it:
the fields populated by `DownloadActivityList` and consumed by
`UploadActivity`.  Times are unix seconds in UTC. -/
structure Activity where
  startTime : Int
  endTime : Int
  name : Option String
  type : ActivityType
  distance : Option Stat
  notes : Option String
  serviceDataId : Nat
  waypointCount : Nat
  isPrivate : Bool
  gps : Bool
deriving DecidableEq, Repr

/-- Substring test on character lists, the semantics of Python's
`needle in haystack` for strings. -/
def charsContain (pat : List Char) : List Char → Bool
  | [] => pat.isEmpty
  | c :: rest => pat.isPrefixOf (c :: rest) || charsContain pat rest

/-- Python's `needle in haystack` on strings. -/
def pyIn (needle haystack : String) : Bool :=
  charsContain needle.toList haystack.toList

/-- The duplicate marker substring matched against response bodies
(dailymile.py lines 285 and 313). -/
def dupMarker : String := "duplicate of activity"

/-- The distance object of the entry payload
(dailymile.py lines 264-273). -/
structure DistancePayload where
  value : Rat
  units : String
deriving DecidableEq, Repr

/-- The `workout` object of the entry payload
(dailymile.py lines 253-273). -/
structure WorkoutPayload where
  title : String
  activity_type : Option String
  duration : Int
  completed_at : Int
  distance : DistancePayload
deriving DecidableEq, Repr

/-- The entry payload POSTed by `UploadActivity`
(dailymile.py lines 252-273). -/
structure EntryPayload where
  message : Option String
  workout : WorkoutPayload
deriving DecidableEq, Repr

/-- Builds the entry payload of `UploadActivity` (dailymile.py lines
252-273) for an activity whose distance statistic is `d`.  The
`completed_at` field is kept as the unix-seconds end time; rendering
it through the fixed date format is injective and not modelled.
`activity_type` keeps the `Option` of the dictionary lookup. -/
def buildEntryPayload (a : Activity) (d : Stat) : EntryPayload :=
  { message := a.notes
  , workout :=
    { title :=
        match a.name with
        | some n => if n = "" then typeName a.type else n
        | none => typeName a.type
    , activity_type := toRemoteType a.type
    , duration := a.endTime - a.startTime
    , completed_at := a.endTime
    , distance :=
        if typeName a.type = "Swimming" then
          ⟨(asUnits d .Meters).value, "meters"⟩
        else
          ⟨(asUnits d .Kilometers).value, "kilometers"⟩ } }

/-- An HTTP response as `UploadActivity` inspects it: status code,
body text, and the `id` field of the parsed JSON body (read only on a
201 entry-creation response). -/
structure HttpResp where
  status : Nat
  text : String
  respId : Nat
deriving DecidableEq, Repr

/-- The two remote responses an `UploadActivity` call can consume:
the POST creating the entry and the PUT attaching the track file. -/
structure UploadDeps where
  entryResp : HttpResp
  trackResp : HttpResp
deriving DecidableEq, Repr

/-- The `APIException` kinds `UploadActivity` can raise
(dailymile.py lines 284, 289 and 317). -/
inductive UploadError where
  | authRequired
  | uploadFailed
  | trackUploadFailed
deriving DecidableEq, Repr

/-- The Python-level outcome of `UploadActivity`: either an
`APIException` is raised or a value is returned (`None` on the
duplicate no-op paths, the remote id on success). -/
inductive UploadReturn where
  | raised (e : UploadError)
  | returned (id : Option Nat)
deriving DecidableEq, Repr

/-- Result of one `UploadActivity` call: the Python return/raise
outcome together with the value of `self.LastUpload` when the call
ends. -/
structure UploadOutcome where
  result : UploadReturn
  lastUpload : Option Int
deriving DecidableEq, Repr

/-- The guard of the inter-upload cooldown loop (dailymile.py lines
242-243): with `LastUpload = some t`, an upload starting at time `now`
busy-waits while `now - t < 5`. -/
def interUploadCooldownActive : Option Int → Int → Bool
  | none, _ => false
  | some t, now => now - t < 5

/-- `UploadActivity` (dailymile.py lines 239-321), shallowly embedded.
`lastUpload` is `self.LastUpload` on entry, `now` stands for
`datetime.now()` at the end of the call, and `deps` carries the remote
responses.  The call first builds the entry payload from
`activity.Stats.Distance`; when the activity carries no distance
statistic the behaviour is decided by
`tapiriik.services.interchange.ActivityStatistic.asUnits`, which is
not under `src/`, so that case is left unmodelled (`none`). -/
def UploadActivity (lastUpload : Option Int) (now : Int)
    (activity : Activity) (deps : UploadDeps) : Option UploadOutcome :=
  match activity.distance with
  | none => none
  | some _d =>
    let response := deps.entryResp
    if response.status ≠ 201 then
      if response.status = 401 then
        some ⟨.raised .authRequired, lastUpload⟩
      else if pyIn dupMarker response.text then
        some ⟨.returned none, some now⟩
      else
        some ⟨.raised .uploadFailed, lastUpload⟩
    else
      let upload_id := response.respId
      if activity.waypointCount ≠ 0 then
        let tresp := deps.trackResp
        if tresp.status ≠ 201 then
          if pyIn dupMarker tresp.text then
            some ⟨.returned none, some now⟩
          else
            some ⟨.raised .trackUploadFailed, lastUpload⟩
        else
          some ⟨.returned (some upload_id), some now⟩
      else
        some ⟨.returned (some upload_id), some now⟩

/-- The `workout` object of a downloaded entry (dailymile.py lines
137-203): optional title, mandatory activity type string, optional
duration in seconds, optional distance as a raw value plus a remote
unit string. -/
structure Workout where
  title : Option String
  activity_type : String
  duration : Option Int
  distance : Option (Rat × String)
deriving DecidableEq, Repr

/-- One downloaded entry (dailymile.py lines 133-208): remote id, the
`at` completion timestamp (the parsed unix seconds of the fixed-format
UTC string), an optional `workout` object (absent for pure media
posts) and an optional free-text `message`. -/
structure Entry where
  id : Nat
  at' : Int
  workout : Option Workout
  message : Option String
deriving DecidableEq, Repr

/-- The parsed JSON page body as `DownloadActivityList` inspects it
(dailymile.py lines 126-133): either a bare array (the older response
shape) or an object, abstracted by its `entries` member (when the key
is present) and the number of its other members.  `len(reqdata)` and
`reqdata ["entries"]` only depend on this much. -/
inductive Resp where
  | arr (xs : List Entry)
  | obj (entries : Option (List Entry)) (otherKeys : Nat)
deriving DecidableEq, Repr

/-- Python's `len(reqdata)`: length of a bare array, member count of
an object. -/
def respLen : Resp → Nat
  | .arr xs => xs.length
  | .obj ents k => k + (if ents.isSome then 1 else 0)

/-- The Python exceptions `DownloadActivityList` can raise. -/
inductive ListError where
  | authRequired
  | typeErrorEntries
  | keyErrorEntries
  | attrErrorUserExceptionOther
deriving DecidableEq, Repr

/-- The page-emptiness checks of dailymile.py lines 128-131: an empty
top-level value breaks the loop (`ok none`), a present-but-empty
`entries` list breaks the loop, a nonempty `entries` list is processed
(`ok (some es)`).  A nonempty bare array makes `reqdata ["entries"]` a
`TypeError` (list indices must be integers); a nonempty object without
the `entries` key makes it a `KeyError`. -/
def pageEntries (r : Resp) : Except ListError (Option (List Entry)) :=
  if respLen r = 0 then .ok none
  else
    match r with
    | .arr _ => .error .typeErrorEntries
    | .obj none _ => .error .keyErrorEntries
    | .obj (some es) _ => if es.length = 0 then .ok none else .ok (some es)

/-- An exclusion record (`APIExcludeActivity`): the reason string and
the remote entry id it names. -/
structure Exclusion where
  reason : String
  activityId : Nat
deriving DecidableEq, Repr

/-- The mutable state threaded through one page's `for` loop
(dailymile.py lines 133-208): the accumulated activities and
exclusions, the per-page minimum `earliestDate` and the rolling
`before` cursor. -/
structure PageState where
  activities : List Activity
  exclusions : List Exclusion
  earliestDate : Option Int
  before : Option Int
deriving DecidableEq, Repr

/-- The cursor advance of dailymile.py lines 153-157: `before2` is
the floored unix-seconds of the new page minimum; if it equals the
current `before` the cursor becomes `before2 - 1` to force progress,
otherwise `before2`.  Python's `int == None` is false, so a `none`
cursor never ties. -/
def cursorAdvance (before : Option Int) (before2 : Int) : Option Int :=
  if before = some before2 then some (before2 - 1) else some before2

/-- The per-entry minimum tracking of dailymile.py lines 148-157:
given the current `earliestDate` and `before` and the entry's end
time `t`, return the updated `(earliestDate, before)` pair.  The
cursor only advances when `t` is a new page minimum. -/
def minUpdate (earliest before : Option Int) (t : Int) :
    Option Int × Option Int :=
  match earliest with
  | none => (some t, cursorAdvance before t)
  | some m => if t < m then (some t, cursorAdvance before t) else (some m, before)

/-- Builds the neutral activity appended at dailymile.py line 208. -/
def mkActivity (ride : Entry) (w : Workout) (ty : ActivityType)
    (dist : Option Stat) : Activity :=
  { startTime := ride.at' - w.duration.getD 0
  , endTime := ride.at'
  , name :=
      match w.title with
      | some t => some t
      | none =>
        match ride.message with
        | some m => some m
        | none => some (typeName ty)
  , type := ty
  , distance := dist
  , notes := none
  , serviceDataId := ride.id
  , waypointCount := 0
  , isPrivate := false
  , gps := false }

/-- One iteration of the per-entry `for` body (dailymile.py lines
133-208).  Entries without a `workout` key are silently skipped.  For
workout entries the `earliestDate` minimum and the `before` cursor are
updated first (lines 148-157), then the activity type is mapped
(exclusion and `continue` when unmapped, lines 168-171), then the
distance unit (lines 176-192).  On an unrecognized distance unit the
source evaluates `UserException(UserException.Other)` at line 190;
modelled from the spec: the exception-kind vocabulary lives on
`UserExceptionType` (used correctly at lines 122, 169 and 284), and
the `UserException` class of `tapiriik.services.api` (not under
`src/`) has no member `Other`, so that expression raises an
`AttributeError` before the exclusion is appended. -/
def processEntry (s : PageState) (ride : Entry) :
    Except ListError PageState :=
  match ride.workout with
  | none => .ok s
  | some w =>
    let upd : Option Int × Option Int :=
      minUpdate s.earliestDate s.before ride.at'
    match toNeutralType w.activity_type with
    | none =>
      .ok { s with
            earliestDate := upd.1
          , before := upd.2
          , exclusions := s.exclusions ++
              [⟨"Unsupported activity type " ++ w.activity_type, ride.id⟩] }
    | some ty =>
      match w.distance with
      | none =>
        .ok { s with
              earliestDate := upd.1
            , before := upd.2
            , activities := s.activities ++ [mkActivity ride w ty none] }
      | some dv =>
        if dv.2 = "miles" then
          .ok { s with
                earliestDate := upd.1
              , before := upd.2
              , activities := s.activities ++
                  [mkActivity ride w ty (some ⟨.Miles, dv.1⟩)] }
        else if dv.2 = "yards" then
          .ok { s with
                earliestDate := upd.1
              , before := upd.2
              , activities := s.activities ++
                  [mkActivity ride w ty (some ⟨.Miles, dv.1 / 1760⟩)] }
        else if dv.2 = "meters" then
          .ok { s with
                earliestDate := upd.1
              , before := upd.2
              , activities := s.activities ++
                  [mkActivity ride w ty (some ⟨.Meters, dv.1⟩)] }
        else if dv.2 = "kilometers" then
          .ok { s with
                earliestDate := upd.1
              , before := upd.2
              , activities := s.activities ++
                  [mkActivity ride w ty (some ⟨.Kilometers, dv.1⟩)] }
        else
          .error .attrErrorUserExceptionOther

/-- The whole per-page `for` loop: left fold of `processEntry`, with
a Python exception aborting the page (and the listing call). -/
def processEntries (s : PageState) : List Entry → Except ListError PageState
  | [] => .ok s
  | e :: rest =>
    match processEntry s e with
    | .error err => .error err
    | .ok s' => processEntries s' rest

/-- The state carried between iterations of the outer `while True`
loop: accumulated activities and exclusions, and the `before` cursor
(`earliestDate` is reset at line 124 on every iteration). -/
structure ListState where
  activities : List Activity
  exclusions : List Exclusion
  before : Option Int
deriving DecidableEq, Repr

/-- A page response from the remote server: HTTP status and parsed
JSON body. -/
structure ServerResp where
  status : Nat
  data : Resp
deriving DecidableEq, Repr

/-- Outcome of one iteration of the `while True` loop of
`DownloadActivityList`: normal termination returning the accumulated
results, a raised exception, or another iteration with an updated
state. -/
inductive StepResult where
  | done (activities : List Activity) (exclusions : List Exclusion)
  | failed (e : ListError)
  | next (s : ListState)
deriving DecidableEq, Repr

/-- The guard of dailymile.py line 116: `before is not None and
before < 0`. -/
def beforeNeg : Option Int → Bool
  | none => false
  | some b => b < 0

/-- One iteration of the `while True` loop of `DownloadActivityList`
(dailymile.py lines 115-211).  The remote service is modelled as a
function from the `until` cursor to a response; a 401 status raises,
other statuses are handed to the JSON page checks, and after a page
the loop continues only in exhaustive mode with `earliestDate` set
(line 210). -/
def listStep (server : Option Int → ServerResp) (exhaustive : Bool)
    (s : ListState) : StepResult :=
  if beforeNeg s.before then .done s.activities s.exclusions
  else
    if (server s.before).status = 401 then .failed .authRequired
    else
      match pageEntries (server s.before).data with
      | .error e => .failed e
      | .ok none => .done s.activities s.exclusions
      | .ok (some es) =>
        match processEntries ⟨s.activities, s.exclusions, none, s.before⟩ es with
        | .error e => .failed e
        | .ok ps =>
          if exhaustive && ps.earliestDate.isSome then
            .next ⟨ps.activities, ps.exclusions, ps.before⟩
          else
            .done ps.activities ps.exclusions

/-- Fuel-indexed run of the `while True` loop; `none` means the fuel
ran out before the loop ended. -/
def listRun (server : Option Int → ServerResp) (exhaustive : Bool) :
    Nat → ListState → Option (Except ListError (List Activity × List Exclusion))
  | 0, _ => none
  | n + 1, s =>
    match listStep server exhaustive s with
    | .done acts excl => some (.ok (acts, excl))
    | .failed e => some (.error e)
    | .next s' => listRun server exhaustive n s'

/-- `DownloadActivityList` (dailymile.py lines 110-213): run the loop
from the initial state (`activities = []`, `exclusions = []`,
`before = None`). -/
def DownloadActivityList (server : Option Int → ServerResp)
    (exhaustive : Bool) (fuel : Nat) :
    Option (Except ListError (List Activity × List Exclusion)) :=
  listRun server exhaustive fuel ⟨[], [], none⟩

/-- The invariant of the per-page cursor pair
`(earliestDate, before)` relative to the incoming cursor value `b`:
before any minimum is recorded the cursor is still `some b`; once a
minimum `m` is recorded the cursor is `m` or `m - 1` and strictly
below `b`. -/
def CursorInv (b : Int) (p : Option Int × Option Int) : Prop :=
  (p.1 = none ∧ p.2 = some b) ∨
  (∃ m b', p.1 = some m ∧ p.2 = some b' ∧ b' < b ∧ (b' = m ∨ b' = m - 1))

/-- A well-behaved remote history: every workout entry served for the
request `until = b` completed at or before `b` (the remote comparison
is documented at dailymile.py line 150 as non-strict). -/
def ValidServer (server : Option Int → ServerResp) : Prop :=
  ∀ b es, pageEntries (server (some b)).data = .ok (some es) →
    ∀ e ∈ es, ∀ w, e.workout = some w → e.at' ≤ b

/-- A workout object with no optional fields, used by concrete runs. -/
def runWorkout : Workout := ⟨none, "Running", none, none⟩

/-- A workout entry completing at unix second 100. -/
def entryAt100 : Entry := ⟨1, 100, some runWorkout, none⟩

/-- A workout entry completing at unix second 99. -/
def entryAt99 : Entry := ⟨2, 99, some runWorkout, none⟩

/-- A concrete server serving the page `[entryAt100, entryAt99]` for
`until = 100` and an empty page otherwise. -/
def tieServer : Option Int → ServerResp := fun u =>
  match u with
  | some 100 => ⟨200, .obj (some [entryAt100, entryAt99]) 0⟩
  | _ => ⟨200, .obj (some []) 0⟩

/-- A concrete server whose every response is an empty entry list. -/
def emptyServer : Option Int → ServerResp := fun _ =>
  ⟨200, .obj (some []) 0⟩

/-- A media-only entry: no `workout` key. -/
def mediaEntry : Entry := ⟨3, 80, none, some "photo"⟩

/-- A concrete server always serving one media-only entry. -/
def mediaServer : Option Int → ServerResp := fun _ =>
  ⟨200, .obj (some [mediaEntry]) 0⟩

/-- A workout whose distance carries an unrecognized unit string. -/
def furlongWorkout : Workout := ⟨none, "Running", none, some (3, "furlongs")⟩

/-- An entry carrying `furlongWorkout`. -/
def furlongEntry : Entry := ⟨7, 50, some furlongWorkout, none⟩

/-- A concrete server always serving `furlongEntry`. -/
def furlongServer : Option Int → ServerResp := fun _ =>
  ⟨200, .obj (some [furlongEntry]) 0⟩

/-- A concrete swimming activity of 1500 metres. -/
def swimActivity : Activity :=
  ⟨0, 60, some "swim", .Swimming, some ⟨.Meters, 1500⟩, none, 11, 0, false, false⟩

/-- A concrete running activity of 5000 metres. -/
def runActivity : Activity :=
  ⟨0, 60, some "run", .Running, some ⟨.Meters, 5000⟩, none, 12, 0, false, false⟩

/-- The running activity with one trajectory point, so that the
track-attach request is issued. -/
def runActivityGps : Activity :=
  ⟨0, 60, some "run", .Running, some ⟨.Meters, 5000⟩, none, 13, 1, false, false⟩


theorem cursorInv_minUpdate (b t : Int) (p : Option Int × Option Int)
    (h : CursorInv b p) (ht : t ≤ b) :
    CursorInv b (minUpdate p.1 p.2 t) := by
  rcases h with ⟨h1, h2⟩ | ⟨m, b', h1, h2, hlt, hor⟩
  · rw [h1, h2]
    simp only [minUpdate, cursorAdvance]
    by_cases he : b = t
    · right
      exact ⟨t, t - 1, rfl, by simp [he], by omega, Or.inr rfl⟩
    · right
      exact ⟨t, t, rfl, by simp [he], by omega, Or.inl rfl⟩
  · rw [h1, h2]
    simp only [minUpdate]
    by_cases hm : t < m
    · simp only [if_pos hm, cursorAdvance]
      by_cases he : b' = t
      · right
        refine ⟨t, t - 1, rfl, by simp [he], ?_, Or.inr rfl⟩
        omega
      · right
        refine ⟨t, t, rfl, by simp [he], ?_, Or.inl rfl⟩
        rcases hor with h | h <;> omega
    · simp only [if_neg hm]
      right
      exact ⟨m, b', rfl, rfl, hlt, hor⟩

theorem processEntry_ok_cursor (s : PageState) (e : Entry) (s' : PageState)
    (h : processEntry s e = .ok s') :
    (e.workout = none ∧ s' = s) ∨
    (e.workout ≠ none ∧
      s'.earliestDate = (minUpdate s.earliestDate s.before e.at').1 ∧
      s'.before = (minUpdate s.earliestDate s.before e.at').2) := by
  cases hw : e.workout with
  | none =>
    left
    refine ⟨rfl, ?_⟩
    simp only [processEntry, hw] at h
    exact (Except.ok.inj h).symm
  | some w =>
    right
    refine ⟨by simp [hw], ?_⟩
    simp only [processEntry, hw] at h
    split at h
    · exact (Except.ok.inj h) ▸ ⟨rfl, rfl⟩
    · split at h
      · exact (Except.ok.inj h) ▸ ⟨rfl, rfl⟩
      · split at h
        · exact (Except.ok.inj h) ▸ ⟨rfl, rfl⟩
        · split at h
          · exact (Except.ok.inj h) ▸ ⟨rfl, rfl⟩
          · split at h
            · exact (Except.ok.inj h) ▸ ⟨rfl, rfl⟩
            · split at h
              · exact (Except.ok.inj h) ▸ ⟨rfl, rfl⟩
              · exact absurd h (by simp)

theorem processEntries_cursorInv (b : Int) :
    ∀ (es : List Entry) (s s' : PageState),
      (∀ e ∈ es, ∀ w, e.workout = some w → e.at' ≤ b) →
      CursorInv b (s.earliestDate, s.before) →
      processEntries s es = .ok s' →
      CursorInv b (s'.earliestDate, s'.before) := by
  intro es
  induction es with
  | nil =>
    intro s s' _ hinv h
    simp only [processEntries] at h
    exact (Except.ok.inj h) ▸ hinv
  | cons e rest ih =>
    intro s s' hle hinv h
    simp only [processEntries] at h
    cases hpe : processEntry s e with
    | error err =>
      rw [hpe] at h
      exact absurd h (by simp)
    | ok s1 =>
      rw [hpe] at h
      have hinv1 : CursorInv b (s1.earliestDate, s1.before) := by
        rcases processEntry_ok_cursor s e s1 hpe with ⟨hw, rfl⟩ | ⟨hw, h1, h2⟩
        · exact hinv
        · rw [h1, h2]
          rcases hwex : e.workout with _ | w
          · exact absurd hwex hw
          · exact cursorInv_minUpdate b e.at' (s.earliestDate, s.before) hinv
              (hle e (by simp) w hwex)
      exact ih s1 s' (fun e' he' => hle e' (by simp [he'])) hinv1 h

theorem minUpdate_isSome (earliest before : Option Int) (t : Int)
    (h : earliest.isSome → before.isSome) :
    (minUpdate earliest before t).1.isSome →
    (minUpdate earliest before t).2.isSome := by
  cases earliest with
  | none => intro _; simp [minUpdate, cursorAdvance]; split <;> simp
  | some m =>
    by_cases hm : t < m
    · intro _; simp [minUpdate, if_pos hm, cursorAdvance]; split <;> simp
    · intro _; simpa [minUpdate, if_neg hm] using h (by simp)

theorem processEntries_isSome :
    ∀ (es : List Entry) (s s' : PageState),
      (s.earliestDate.isSome → s.before.isSome) →
      processEntries s es = .ok s' →
      (s'.earliestDate.isSome → s'.before.isSome) := by
  intro es
  induction es with
  | nil =>
    intro s s' hs h
    simp only [processEntries] at h
    exact (Except.ok.inj h) ▸ hs
  | cons e rest ih =>
    intro s s' hs h
    simp only [processEntries] at h
    cases hpe : processEntry s e with
    | error err =>
      rw [hpe] at h
      exact absurd h (by simp)
    | ok s1 =>
      rw [hpe] at h
      have hs1 : s1.earliestDate.isSome → s1.before.isSome := by
        rcases processEntry_ok_cursor s e s1 hpe with ⟨_, rfl⟩ | ⟨_, h1, h2⟩
        · exact hs
        · rw [h1, h2]
          exact minUpdate_isSome s.earliestDate s.before e.at' hs
      exact ih s1 s' hs1 h

theorem listStep_next_inv (server : Option Int → ServerResp) (ex : Bool)
    (s : ListState) (s' : ListState)
    (h : listStep server ex s = .next s') :
    beforeNeg s.before = false ∧
    ∃ es ps, pageEntries (server s.before).data = .ok (some es) ∧
      processEntries ⟨s.activities, s.exclusions, none, s.before⟩ es = .ok ps ∧
      ps.earliestDate.isSome = true ∧
      s' = ⟨ps.activities, ps.exclusions, ps.before⟩ := by
  unfold listStep at h
  split at h
  · exact absurd h (by simp)
  · split at h
    · exact absurd h (by simp)
    · split at h
      · exact absurd h (by simp)
      · exact absurd h (by simp)
      · split at h
        · exact absurd h (by simp)
        · split at h
          · rename_i hneg h401 _x1 es hpg _x2 ps hpr hcond
            refine ⟨by simpa using hneg, es, ps, hpg, hpr, ?_, ?_⟩
            · simpa using (Bool.and_eq_true _ _ ▸ hcond).2
            · exact (StepResult.next.inj h).symm
          · exact absurd h (by simp)

theorem listStep_next_decreases (server : Option Int → ServerResp)
    (hv : ValidServer server) (s s' : ListState) (b : Int)
    (hb : s.before = some b) (h : listStep server true s = .next s') :
    ∃ b', s'.before = some b' ∧ b' < b := by
  obtain ⟨hneg, es, ps, hpg, hpr, hsome, rfl⟩ :=
    listStep_next_inv server true s s' h
  have hle : ∀ e ∈ es, ∀ w, e.workout = some w → e.at' ≤ b := by
    intro e he w hw
    exact hv b es (hb ▸ hpg) e he w hw
  have hinv : CursorInv b ((none : Option Int), s.before) := Or.inl ⟨rfl, hb⟩
  have hinv' := processEntries_cursorInv b es
    ⟨s.activities, s.exclusions, none, s.before⟩ ps hle hinv hpr
  rcases hinv' with ⟨h1, _⟩ | ⟨m, b', h1, h2, hlt, _⟩
  · have h1' : ps.earliestDate = none := h1
    rw [h1'] at hsome
    simp at hsome
  · exact ⟨b', h2, hlt⟩

theorem listRun_term_aux (server : Option Int → ServerResp)
    (hv : ValidServer server) :
    ∀ n : Nat, ∀ b : Int, ∀ s : ListState,
      (b + 1).toNat ≤ n → s.before = some b →
      (listRun server true (n + 1) s).isSome = true := by
  intro n
  induction n using Nat.strong_induction_on with
  | _ n ih =>
    intro b s hbn hb
    cases hstep : listStep server true s with
    | done a e => simp [listRun, hstep]
    | failed e => simp [listRun, hstep]
    | next s' =>
      obtain ⟨hneg, _, _, _, _, _, _⟩ := listStep_next_inv server true s s' hstep
      have hb0 : 0 ≤ b := by
        rw [hb] at hneg
        simp [beforeNeg] at hneg
        omega
      obtain ⟨b', hb', hlt⟩ := listStep_next_decreases server hv s s' b hb hstep
      have hb'n : (b' + 1).toNat ≤ n - 1 := by omega
      have hrec := ih (n - 1) (by omega) b' s' hb'n hb'
      have hrw : n - 1 + 1 = n := by omega
      rw [hrw] at hrec
      simpa [listRun, hstep] using hrec

theorem listRun_terminates (server : Option Int → ServerResp)
    (hv : ValidServer server) :
    ∀ s : ListState, ∃ n, (listRun server true n s).isSome = true := by
  intro s
  cases hstep : listStep server true s with
  | done a e => exact ⟨1, by simp [listRun, hstep]⟩
  | failed e => exact ⟨1, by simp [listRun, hstep]⟩
  | next s' =>
    obtain ⟨hneg, es, ps, hpg, hpr, hsome, hs'⟩ :=
      listStep_next_inv server true s s' hstep
    have hps : ps.before.isSome = true :=
      processEntries_isSome es ⟨s.activities, s.exclusions, none, s.before⟩
        ps (by simp) hpr hsome
    rcases hS : ps.before with _ | b'
    · rw [hS] at hps
      simp at hps
    · have hsb : s'.before = some b' := by rw [hs']; exact hS
      have hrec := listRun_term_aux server hv ((b' + 1).toNat) b' s'
        (le_refl _) hsb
      exact ⟨(b' + 1).toNat + 2, by simpa [listRun, hstep] using hrec⟩

/-- C1 (counterexample to the claim as stated): with the incoming
cursor `before = 100`, a page holding workout entries at 100 and 99
has minimum end time 99, different from 100, yet the next page request
uses 98, not the floored minimum 99: the tie check of dailymile.py
line 154 compares against the running cursor, already lowered to 99 by
the first entry, so the second entry ties and decrements again. -/
theorem claim_c1_counterexample :
    listStep tieServer true ⟨[], [], some 100⟩ =
      .next ⟨[mkActivity entryAt100 runWorkout .Running none,
              mkActivity entryAt99 runWorkout .Running none], [], some 98⟩ ∧
    entryAt100.at' = 100 ∧ entryAt99.at' = 99 ∧
    min entryAt100.at' entryAt99.at' = 99 ∧
    (99 : Int) ≠ 100 ∧ some (98 : Int) ≠ some (99 : Int) := by
  refine ⟨rfl, rfl, rfl, by decide, by decide, by decide⟩

/-- C1 (amended): against any remote history whose pages respect the
`until` bound, the outgoing cursor of every page that continues the
exhaustive loop is strictly below the incoming cursor (it is the
floored page minimum, possibly lowered by tie decrements against the
running cursor), and the exhaustive listing loop terminates from any
state for some finite fuel. -/
theorem exhaustive_cursor_decreases_and_terminates
    (server : Option Int → ServerResp) (hv : ValidServer server) :
    (∀ s s' : ListState, ∀ b : Int, s.before = some b →
      listStep server true s = .next s' →
      ∃ b', s'.before = some b' ∧ b' < b) ∧
    (∀ s : ListState, ∃ n, (listRun server true n s).isSome = true) :=
  ⟨fun s s' b hb h => listStep_next_decreases server hv s s' b hb h,
   listRun_terminates server hv⟩

theorem exhaustive_cursor_decreases_and_terminates_witness :
    ∃ n, (listRun emptyServer true n ⟨[], [], none⟩).isSome = true :=
  (exhaustive_cursor_decreases_and_terminates emptyServer
    (by intro b es h e he w hw; simp [emptyServer, pageEntries, respLen] at h)).2
    ⟨[], [], none⟩

theorem processEntries_media :
    ∀ (es : List Entry) (s : PageState),
      (∀ e ∈ es, e.workout = none) → processEntries s es = .ok s := by
  intro es
  induction es with
  | nil => intro s _; rfl
  | cons e rest ih =>
    intro s hms
    have hw : e.workout = none := hms e (by simp)
    simp only [processEntries, processEntry, hw]
    exact ih s (fun e' he' => hms e' (by simp [he']))

/-- C8: a page with at least one entry but no workout entry leaves
`earliestDate` unset, so even the exhaustive listing stops after that
page, returning the results accumulated so far. -/
theorem media_only_page_stops_exhaustive_listing
    (server : Option Int → ServerResp) (s : ListState) (es : List Entry)
    (hneg : beforeNeg s.before = false)
    (h401 : (server s.before).status ≠ 401)
    (hpg : pageEntries (server s.before).data = .ok (some es))
    (_hne : es ≠ [])
    (hmedia : ∀ e ∈ es, e.workout = none) :
    listStep server true s = .done s.activities s.exclusions := by
  have hpr := processEntries_media es
    ⟨s.activities, s.exclusions, none, s.before⟩ hmedia
  simp [listStep, hneg, h401, hpg, hpr]

theorem media_only_page_stops_exhaustive_listing_witness :
    listStep mediaServer true ⟨[], [], none⟩ = .done [] [] :=
  media_only_page_stops_exhaustive_listing mediaServer ⟨[], [], none⟩
    [mediaEntry] rfl (by decide) rfl (by decide) (by decide)

/-- C3 (counterexample to the claim as stated): a page response whose
top-level object is nonempty but lacks the `entries` member does not
stop the loop as normal termination; `reqdata["entries"]` at
dailymile.py line 130 raises a `KeyError`. -/
theorem claim_c3_counterexample :
    listStep (fun _ => ⟨200, .obj none 1⟩) true ⟨[], [], none⟩ =
      .failed .keyErrorEntries ∧
    respLen (.obj none 1) ≠ 0 := by
  exact ⟨rfl, by decide⟩

/-- C3 (amended): a page whose top-level value is empty (empty object
or empty bare array), or whose `entries` list is present but empty,
stops the listing loop as normal termination, returning the
accumulated results; a nonempty response without an `entries` list
instead raises. -/
theorem empty_page_stops_listing
    (server : Option Int → ServerResp) (s : ListState)
    (hneg : beforeNeg s.before = false)
    (h401 : (server s.before).status ≠ 401)
    (hempty : respLen (server s.before).data = 0 ∨
      ∃ k, (server s.before).data = .obj (some []) k) :
    listStep server true s = .done s.activities s.exclusions := by
  have hpg : pageEntries (server s.before).data = .ok none := by
    rcases hempty with h | ⟨k, h⟩
    · simp [pageEntries, h]
    · rw [h]
      unfold pageEntries
      split <;> simp
  simp [listStep, hneg, h401, hpg]

theorem empty_page_stops_listing_witness :
    listStep emptyServer true ⟨[], [], none⟩ = .done [] [] :=
  empty_page_stops_listing emptyServer ⟨[], [], none⟩ rfl (by decide)
    (Or.inr ⟨0, rfl⟩)

/-- C2 (code bug): an entry whose workout carries a recognized
activity type but an unrecognized distance unit does not produce an
exclusion record; evaluating `UserException(UserException.Other)` at
dailymile.py line 190 raises an `AttributeError` (the kind vocabulary
lives on `UserExceptionType`, cf. lines 122, 169 and 284), aborting
the page and the whole listing call. -/
theorem unknown_unit_raises_attribute_error :
    processEntry ⟨[], [], none, none⟩ furlongEntry =
      .error .attrErrorUserExceptionOther ∧
    listStep furlongServer false ⟨[], [], none⟩ =
      .failed .attrErrorUserExceptionOther :=
  ⟨rfl, rfl⟩

/-- C4: the entry payload renders a Swimming activity's distance in
meters and every other activity type's distance in kilometers
(dailymile.py lines 262-273). -/
theorem upload_distance_unit_by_type (a : Activity) (d : Stat) :
    (a.type = .Swimming →
      (buildEntryPayload a d).workout.distance =
        ⟨(asUnits d .Meters).value, "meters"⟩) ∧
    (a.type ≠ .Swimming →
      (buildEntryPayload a d).workout.distance =
        ⟨(asUnits d .Kilometers).value, "kilometers"⟩) := by
  constructor
  · intro h
    simp [buildEntryPayload, h, typeName]
  · intro h
    have hne : typeName a.type ≠ "Swimming" := by
      cases ha : a.type
      case Swimming => exact absurd ha h
      all_goals decide
    simp [buildEntryPayload, hne]

theorem upload_distance_unit_by_type_witness :
    (buildEntryPayload swimActivity ⟨.Meters, 1500⟩).workout.distance =
      ⟨1500, "meters"⟩ ∧
    (buildEntryPayload runActivity ⟨.Meters, 5000⟩).workout.distance =
      ⟨5, "kilometers"⟩ := by
  constructor
  · have h := (upload_distance_unit_by_type swimActivity ⟨.Meters, 1500⟩).1 rfl
    rw [h]
    simp [asUnits, metersPer]
  · have h := (upload_distance_unit_by_type runActivity ⟨.Meters, 5000⟩).2
      (by decide)
    rw [h]
    simp [asUnits, metersPer]
    norm_num

/-- C5 (counterexample to the claim as stated): a 401 entry-creation
response whose body contains the duplicate marker does not return the
no-op result; the 401 check at dailymile.py line 283 comes first and
raises, leaving `LastUpload` unchanged. -/
theorem claim_c5_counterexample :
    UploadActivity none 0 runActivity ⟨⟨401, dupMarker, 0⟩, ⟨0, "", 0⟩⟩ =
      some ⟨.raised .authRequired, none⟩ ∧
    pyIn dupMarker dupMarker = true ∧ (401 : Nat) ≠ 201 := by
  refine ⟨by decide, by decide, by decide⟩

/-- C5 (amended): for every entry-creation response that is non-201,
non-401 and whose body contains the duplicate marker, `UploadActivity`
returns the no-op result without raising and records `LastUpload`, so
a subsequent upload within 5 seconds still waits on the cooldown. -/
theorem upload_duplicate_noop_and_cooldown
    (lu : Option Int) (now : Int) (a : Activity) (d : Stat)
    (deps : UploadDeps)
    (hd : a.distance = some d)
    (hs : deps.entryResp.status ≠ 201)
    (h401 : deps.entryResp.status ≠ 401)
    (hdup : pyIn dupMarker deps.entryResp.text = true) :
    UploadActivity lu now a deps = some ⟨.returned none, some now⟩ ∧
    ∀ t : Int, t - now < 5 → interUploadCooldownActive (some now) t = true := by
  constructor
  · simp [UploadActivity, hd, hs, h401, hdup]
  · intro t ht
    simp [interUploadCooldownActive, ht]

theorem upload_duplicate_noop_and_cooldown_witness :
    UploadActivity none 0 runActivity
      ⟨⟨422, "x duplicate of activity y", 7⟩, ⟨0, "", 0⟩⟩ =
      some ⟨.returned none, some 0⟩ ∧
    interUploadCooldownActive (some 0) 3 = true := by
  have h := upload_duplicate_noop_and_cooldown none 0 runActivity
    ⟨.Meters, 5000⟩ ⟨⟨422, "x duplicate of activity y", 7⟩, ⟨0, "", 0⟩⟩
    rfl (by decide) (by decide) (by decide)
  exact ⟨h.1, h.2 3 (by decide)⟩

/-- C6 (counterexample to the claim as stated): a failing
entry-creation response (non-201, non-401, no duplicate marker) ends
the call by raising, and `LastUpload` keeps its old value 10 instead
of being recorded as the completion time 20. -/
theorem claim_c6_counterexample :
    UploadActivity (some 10) 20 runActivity
      ⟨⟨500, "server error", 0⟩, ⟨0, "", 0⟩⟩ =
      some ⟨.raised .uploadFailed, some 10⟩ ∧
    some (10 : Int) ≠ some (20 : Int) :=
  ⟨by decide, by decide⟩

/-- C6 (amended): every returning terminal path of `UploadActivity`
(successful upload and both duplicate no-op paths) records
`LastUpload`; every raising terminal path leaves it unchanged. -/
theorem upload_lastupload_by_terminal_path
    (lu : Option Int) (now : Int) (a : Activity) (d : Stat)
    (deps : UploadDeps)
    (hd : a.distance = some d) :
    ∃ out, UploadActivity lu now a deps = some out ∧
      (∀ i, out.result = .returned i → out.lastUpload = some now) ∧
      (∀ e, out.result = .raised e → out.lastUpload = lu) := by
  by_cases h1 : deps.entryResp.status = 201
  · by_cases h4 : a.waypointCount = 0
    · exact ⟨⟨.returned (some deps.entryResp.respId), some now⟩,
        by simp [UploadActivity, hd, h1, h4], by simp, by simp⟩
    · by_cases h5 : deps.trackResp.status = 201
      · exact ⟨⟨.returned (some deps.entryResp.respId), some now⟩,
          by simp [UploadActivity, hd, h1, h4, h5], by simp, by simp⟩
      · by_cases h6 : pyIn dupMarker deps.trackResp.text = true
        · exact ⟨⟨.returned none, some now⟩,
            by simp [UploadActivity, hd, h1, h4, h5, h6], by simp, by simp⟩
        · exact ⟨⟨.raised .trackUploadFailed, lu⟩,
            by simp [UploadActivity, hd, h1, h4, h5, h6], by simp, by simp⟩
  · by_cases h2 : deps.entryResp.status = 401
    · exact ⟨⟨.raised .authRequired, lu⟩,
        by simp [UploadActivity, hd, h1, h2], by simp, by simp⟩
    · by_cases h3 : pyIn dupMarker deps.entryResp.text = true
      · exact ⟨⟨.returned none, some now⟩,
          by simp [UploadActivity, hd, h1, h2, h3], by simp, by simp⟩
      · exact ⟨⟨.raised .uploadFailed, lu⟩,
          by simp [UploadActivity, hd, h1, h2, h3], by simp, by simp⟩

theorem upload_lastupload_by_terminal_path_witness :
    ∃ out, UploadActivity none 0 runActivity
        ⟨⟨201, "created", 42⟩, ⟨0, "", 0⟩⟩ = some out ∧
      (∀ i, out.result = .returned i → out.lastUpload = some 0) ∧
      (∀ e, out.result = .raised e → out.lastUpload = none) :=
  upload_lastupload_by_terminal_path none 0 runActivity ⟨.Meters, 5000⟩
    ⟨⟨201, "created", 42⟩, ⟨0, "", 0⟩⟩ rfl

/-- C7: every neutral type in the supported set maps to a remote type
string that the reverse table maps back to some neutral type (never an
unmapped result), and the round-tripped type maps forward to the same
remote category (the original type or its lossy collapse). -/
theorem activity_type_roundtrip (t : ActivityType)
    (h : t ∈ SupportedActivities) :
    ((toRemoteType t).bind toNeutralType).isSome = true ∧
    ((toRemoteType t).bind toNeutralType).all
      (fun t' => toRemoteType t' == toRemoteType t) = true := by
  revert h
  cases t <;> decide

theorem activity_type_roundtrip_witness :
    (ActivityType.MountainBiking ∈ SupportedActivities) ∧
    ((toRemoteType .MountainBiking).bind toNeutralType).isSome = true :=
  ⟨by decide, (activity_type_roundtrip .MountainBiking (by decide)).1⟩

/-- C10: when entry creation succeeds (201, remote id assigned) but
the track-attach response is non-201 with the duplicate marker in its
body, `UploadActivity` returns the no-op result, discarding the id the
entry-creation step assigned (dailymile.py lines 313-316). -/
theorem track_duplicate_returns_no_id
    (lu : Option Int) (now : Int) (a : Activity) (d : Stat)
    (deps : UploadDeps)
    (hd : a.distance = some d)
    (hwp : a.waypointCount ≠ 0)
    (hcreated : deps.entryResp.status = 201)
    (hts : deps.trackResp.status ≠ 201)
    (htdup : pyIn dupMarker deps.trackResp.text = true) :
    UploadActivity lu now a deps = some ⟨.returned none, some now⟩ := by
  simp [UploadActivity, hd, hcreated, hwp, hts, htdup]

theorem track_duplicate_returns_no_id_witness :
    UploadActivity none 0 runActivityGps
      ⟨⟨201, "created", 42⟩, ⟨400, "that is a duplicate of activity 9", 0⟩⟩ =
      some ⟨.returned none, some 0⟩ :=
  track_duplicate_returns_no_id none 0 runActivityGps ⟨.Meters, 5000⟩
    ⟨⟨201, "created", 42⟩, ⟨400, "that is a duplicate of activity 9", 0⟩⟩
    rfl (by decide) rfl (by decide) (by decide)

end Dailymile
